import Mathlib

/-!
Verification of the stress-test tool (main.go): the data model (`Result`,
`Report`), the aggregation fold performed by `Run` over the results channel,
the finalization of the average duration, the worker's outcome emission, and
the configuration validation in `main`.

Conventions of the embedding:
  - `time.Duration` values are elapsed times measured by `time.Since`, hence
    non-negative; they are modelled as `Nat` (nanosecond counts).
  - the Go `error` field of `Result` is modelled as a `Bool` flag (`true`
    exactly when the transport call failed, i.e. `err != nil`).
  - the Go `map[int]int` status histogram is modelled as a total function
    `Int → Nat` with default value `0` (a missing key reads as `0`, which is
    exactly how `map[...]++` treats it); `histSupport` recovers the set of
    keys actually present.
  - `Report.TotalTime` is wall-clock time (`time.Since(startTime)`), not a
    function of the consumed outcomes, so it is not part of the model.
  - the concurrent delivery of outcomes through the channel is modelled by
    quantifying over an arbitrary permutation of the per-token outcomes.
-/

namespace StressSpec

/-- Result of one request, from `type Result struct` in main.go: `StatusCode`
is meaningful only when `Error` is `false`; `Error` marks a transport
failure. -/
structure Result where
  StatusCode : Int
  Duration : Nat
  Error : Bool
deriving DecidableEq

/-- Report of a run, from `type Report struct` in main.go, without the
wall-clock `TotalTime` field (not a function of the outcomes). -/
structure Report where
  TotalRequests : Nat
  SuccessfulRequests : Nat
  FailedRequests : Nat
  StatusCodes : Int → Nat
  MinDuration : Nat
  MaxDuration : Nat
  AvgDuration : Nat

/-- Aggregation state during the collection loop of `Run`: the report under
construction plus the local accumulator `totalDuration`. -/
structure AggState where
  report : Report
  totalDuration : Nat

/-- Sentinel `time.Duration(1<<63 - 1)`, the largest `int64` value, used to
initialize `MinDuration` (main.go line 56). -/
def maxDurationSentinel : Nat := 2 ^ 63 - 1

/-- Initial report built at the top of `Run` (main.go lines 54-57): empty
histogram, `MinDuration` at the sentinel, every other field at its zero
value. -/
def initReport : Report :=
  { TotalRequests := 0
    SuccessfulRequests := 0
    FailedRequests := 0
    StatusCodes := fun _ => 0
    MinDuration := maxDurationSentinel
    MaxDuration := 0
    AvgDuration := 0 }

/-- Initial aggregation state: `initReport` with `totalDuration = 0`
(main.go line 94). -/
def initState : AggState :=
  { report := initReport, totalDuration := 0 }

/-- One iteration of the collection loop of `Run` (main.go lines 95-118):
increment `TotalRequests`; on a transport error only increment
`FailedRequests`; otherwise bump the histogram at the status code, increment
`SuccessfulRequests` (code 200) or `FailedRequests` (other codes), add the
duration to `totalDuration`, and update `MinDuration`/`MaxDuration`. -/
def consume (s : AggState) (result : Result) : AggState :=
  let report := { s.report with TotalRequests := s.report.TotalRequests + 1 }
  if result.Error = false then
    let report :=
      { report with
        StatusCodes := fun code =>
          if code = result.StatusCode then report.StatusCodes code + 1
          else report.StatusCodes code }
    let report :=
      if result.StatusCode = 200 then
        { report with SuccessfulRequests := report.SuccessfulRequests + 1 }
      else
        { report with FailedRequests := report.FailedRequests + 1 }
    let totalDuration := s.totalDuration + result.Duration
    let report :=
      if result.Duration < report.MinDuration then
        { report with MinDuration := result.Duration }
      else report
    let report :=
      if result.Duration > report.MaxDuration then
        { report with MaxDuration := result.Duration }
      else report
    { report := report, totalDuration := totalDuration }
  else
    { report := { report with FailedRequests := report.FailedRequests + 1 },
      totalDuration := s.totalDuration }

/-- Finalization step of `Run` (main.go lines 122-124): divide the
accumulated `totalDuration` by `SuccessfulRequests`, guarded by
`SuccessfulRequests > 0`. -/
def finalize (s : AggState) : Report :=
  if s.report.SuccessfulRequests > 0 then
    { s.report with AvgDuration := s.totalDuration / s.report.SuccessfulRequests }
  else
    s.report

/-- The whole aggregation performed by `Run` on the stream of consumed
outcomes: fold the collection loop from the initial state, then finalize. -/
def runAggregate (outcomes : List Result) : Report :=
  finalize (outcomes.foldl consume initState)

/-- Outcome of the HTTP call `st.Client.Get(st.URL)` as seen by a worker:
either a transport failure (`err != nil`) or a response with a status
code. -/
inductive Attempt where
  | failure : Attempt
  | response : Int → Attempt

/-- Outcome emission by a worker (main.go lines 75-88): on a transport
failure the worker sends `Result{Error: err}`, whose `StatusCode` and
`Duration` are the zero values, discarding the measured elapsed time; on a
response it sends the status code and the measured duration. -/
def emitOutcome (a : Attempt) (elapsed : Nat) : Result :=
  match a with
  | Attempt.failure => { StatusCode := 0, Duration := 0, Error := true }
  | Attempt.response code => { StatusCode := code, Duration := elapsed, Error := false }

/-- The token queue `requestChan` (main.go lines 63-67): `st.Requests`
indistinguishable tokens, inserted before any worker starts, then closed. -/
def tokenQueue (n : Nat) : List Unit := List.replicate n ()

/-- The per-token outcomes of the worker pool (main.go lines 70-91): token
`i` gives rise to exactly one emitted outcome, determined by the oracle
`http` (result of the GET) and `elapsed` (measured duration) for that
token. The channel delivery order is modelled separately as a permutation
of this list. -/
def dispatchOutcomes (http : Nat → Attempt) (elapsed : Nat → Nat) (n : Nat) :
    List Result :=
  (List.range n).map (fun i => emitOutcome (http i) (elapsed i))

/-- Observable outcome of `main` (main.go lines 129-149): either the usage
error message (invalid configuration, no report), or a printed report. -/
inductive MainOutcome where
  | usageError : MainOutcome
  | reportPrinted : Report → MainOutcome

/-- Model of `main` (main.go lines 129-149): flags default to `""`/`0`; if
the URL is empty or either count is non-positive, print the usage message
and return before any request; otherwise run the test and print the
report. -/
def mainModel (url : String) (requests concurrency : Int)
    (http : Nat → Attempt) (elapsed : Nat → Nat) : MainOutcome :=
  if url = "" ∨ requests ≤ 0 ∨ concurrency ≤ 0 then
    MainOutcome.usageError
  else
    MainOutcome.reportPrinted
      (runAggregate (dispatchOutcomes http elapsed requests.toNat))

/-- A consumed outcome counted as successful: no transport error and status
code 200. -/
def isSuccess (r : Result) : Bool := !r.Error && (r.StatusCode == 200)

/-- A consumed outcome that carried a transport error. -/
def isTransportError (r : Result) : Bool := r.Error

/-- A consumed outcome without transport error whose status code is `c`. -/
def hasCode (c : Int) (r : Result) : Bool := !r.Error && (r.StatusCode == c)

/-- Durations of the outcomes without transport error, in consumption
order. -/
def nonErrorDurations (l : List Result) : List Nat :=
  (l.filter (fun r => !r.Error)).map Result.Duration

/-- Status codes actually present in the histogram after consuming `l`: the
codes of the outcomes without transport error. -/
def histSupport (l : List Result) : Finset Int :=
  ((l.filter (fun r => !r.Error)).map Result.StatusCode).toFinset

theorem consume_totalRequests (s : AggState) (r : Result) :
    (consume s r).report.TotalRequests = s.report.TotalRequests + 1 := by
  simp only [consume]
  split_ifs <;> rfl

theorem consume_successfulRequests (s : AggState) (r : Result) :
    (consume s r).report.SuccessfulRequests =
      if r.Error = false ∧ r.StatusCode = 200 then s.report.SuccessfulRequests + 1
      else s.report.SuccessfulRequests := by
  simp only [consume]
  split_ifs <;> simp_all

theorem consume_failedRequests (s : AggState) (r : Result) :
    (consume s r).report.FailedRequests =
      if r.Error = false ∧ r.StatusCode = 200 then s.report.FailedRequests
      else s.report.FailedRequests + 1 := by
  simp only [consume]
  split_ifs <;> simp_all

theorem consume_statusCodes (s : AggState) (r : Result) (c : Int) :
    (consume s r).report.StatusCodes c =
      if r.Error = false ∧ r.StatusCode = c then s.report.StatusCodes c + 1
      else s.report.StatusCodes c := by
  simp only [consume]
  split_ifs <;> simp_all <;> omega

theorem consume_totalDuration (s : AggState) (r : Result) :
    (consume s r).totalDuration =
      if r.Error = false then s.totalDuration + r.Duration else s.totalDuration := by
  simp only [consume]
  split_ifs <;> rfl

theorem consume_minDuration (s : AggState) (r : Result) :
    (consume s r).report.MinDuration =
      if r.Error = false then min s.report.MinDuration r.Duration
      else s.report.MinDuration := by
  simp only [consume]
  split_ifs <;> simp_all <;> omega

theorem consume_maxDuration (s : AggState) (r : Result) :
    (consume s r).report.MaxDuration =
      if r.Error = false then max s.report.MaxDuration r.Duration
      else s.report.MaxDuration := by
  simp only [consume]
  split_ifs <;> simp_all <;> omega

theorem consume_avgDuration (s : AggState) (r : Result) :
    (consume s r).report.AvgDuration = s.report.AvgDuration := by
  simp only [consume]
  split_ifs <;> rfl

theorem finalize_totalRequests (s : AggState) :
    (finalize s).TotalRequests = s.report.TotalRequests := by
  simp only [finalize]; split_ifs <;> rfl

theorem finalize_successfulRequests (s : AggState) :
    (finalize s).SuccessfulRequests = s.report.SuccessfulRequests := by
  simp only [finalize]; split_ifs <;> rfl

theorem finalize_failedRequests (s : AggState) :
    (finalize s).FailedRequests = s.report.FailedRequests := by
  simp only [finalize]; split_ifs <;> rfl

theorem finalize_statusCodes (s : AggState) :
    (finalize s).StatusCodes = s.report.StatusCodes := by
  simp only [finalize]; split_ifs <;> rfl

theorem finalize_minDuration (s : AggState) :
    (finalize s).MinDuration = s.report.MinDuration := by
  simp only [finalize]; split_ifs <;> rfl

theorem finalize_maxDuration (s : AggState) :
    (finalize s).MaxDuration = s.report.MaxDuration := by
  simp only [finalize]; split_ifs <;> rfl

theorem finalize_avgDuration (s : AggState) :
    (finalize s).AvgDuration =
      if 0 < s.report.SuccessfulRequests then s.totalDuration / s.report.SuccessfulRequests
      else s.report.AvgDuration := by
  simp only [finalize]; split_ifs <;> rfl

theorem isSuccess_iff (r : Result) :
    isSuccess r = true ↔ (r.Error = false ∧ r.StatusCode = 200) := by
  simp [isSuccess]

theorem hasCode_iff (c : Int) (r : Result) :
    hasCode c r = true ↔ (r.Error = false ∧ r.StatusCode = c) := by
  simp [hasCode]

theorem nonErrorDurations_cons (r : Result) (t : List Result) :
    nonErrorDurations (r :: t) =
      if r.Error = false then r.Duration :: nonErrorDurations t
      else nonErrorDurations t := by
  cases hr : r.Error <;> simp [nonErrorDurations, List.filter_cons, hr]

theorem foldl_totalRequests (l : List Result) : ∀ s : AggState,
    (l.foldl consume s).report.TotalRequests = s.report.TotalRequests + l.length := by
  induction l with
  | nil => intro s; simp
  | cons r t ih =>
    intro s
    rw [List.foldl_cons, ih, consume_totalRequests, List.length_cons]
    omega

theorem foldl_successfulRequests (l : List Result) : ∀ s : AggState,
    (l.foldl consume s).report.SuccessfulRequests =
      s.report.SuccessfulRequests + l.countP isSuccess := by
  induction l with
  | nil => intro s; simp
  | cons r t ih =>
    intro s
    rw [List.foldl_cons, ih, consume_successfulRequests, List.countP_cons]
    by_cases h : r.Error = false ∧ r.StatusCode = 200
    · rw [if_pos h, if_pos ((isSuccess_iff r).mpr h)]
      omega
    · have hb : isSuccess r = false := by
        cases hx : isSuccess r
        · rfl
        · exact absurd ((isSuccess_iff r).mp hx) h
      rw [if_neg h, hb]
      simp

theorem foldl_failedRequests (l : List Result) : ∀ s : AggState,
    (l.foldl consume s).report.FailedRequests =
      s.report.FailedRequests + l.countP (fun r => !(isSuccess r)) := by
  induction l with
  | nil => intro s; simp
  | cons r t ih =>
    intro s
    rw [List.foldl_cons, ih, consume_failedRequests, List.countP_cons]
    by_cases h : r.Error = false ∧ r.StatusCode = 200
    · have hb : isSuccess r = true := (isSuccess_iff r).mpr h
      rw [if_pos h, hb]
      simp
    · have hb : isSuccess r = false := by
        cases hx : isSuccess r
        · rfl
        · exact absurd ((isSuccess_iff r).mp hx) h
      rw [if_neg h, hb]
      simp
      omega

theorem foldl_statusCodes (l : List Result) : ∀ (s : AggState) (c : Int),
    (l.foldl consume s).report.StatusCodes c =
      s.report.StatusCodes c + l.countP (hasCode c) := by
  induction l with
  | nil => intro s c; simp
  | cons r t ih =>
    intro s c
    rw [List.foldl_cons, ih, consume_statusCodes, List.countP_cons]
    by_cases h : r.Error = false ∧ r.StatusCode = c
    · rw [if_pos h, if_pos ((hasCode_iff c r).mpr h)]
      omega
    · have hb : hasCode c r = false := by
        cases hx : hasCode c r
        · rfl
        · exact absurd ((hasCode_iff c r).mp hx) h
      rw [if_neg h, hb]
      simp

theorem foldl_totalDuration (l : List Result) : ∀ s : AggState,
    (l.foldl consume s).totalDuration =
      s.totalDuration + (nonErrorDurations l).sum := by
  induction l with
  | nil => intro s; simp [nonErrorDurations]
  | cons r t ih =>
    intro s
    rw [List.foldl_cons, ih, consume_totalDuration, nonErrorDurations_cons]
    by_cases h : r.Error = false
    · rw [if_pos h, if_pos h, List.sum_cons]
      omega
    · rw [if_neg h, if_neg h]

theorem foldl_minDuration (l : List Result) : ∀ s : AggState,
    (l.foldl consume s).report.MinDuration =
      (nonErrorDurations l).foldl min s.report.MinDuration := by
  induction l with
  | nil => intro s; simp [nonErrorDurations]
  | cons r t ih =>
    intro s
    rw [List.foldl_cons, ih, consume_minDuration, nonErrorDurations_cons]
    by_cases h : r.Error = false
    · rw [if_pos h, if_pos h, List.foldl_cons]
    · rw [if_neg h, if_neg h]

theorem foldl_maxDuration (l : List Result) : ∀ s : AggState,
    (l.foldl consume s).report.MaxDuration =
      (nonErrorDurations l).foldl max s.report.MaxDuration := by
  induction l with
  | nil => intro s; simp [nonErrorDurations]
  | cons r t ih =>
    intro s
    rw [List.foldl_cons, ih, consume_maxDuration, nonErrorDurations_cons]
    by_cases h : r.Error = false
    · rw [if_pos h, if_pos h, List.foldl_cons]
    · rw [if_neg h, if_neg h]

theorem foldl_avgDuration (l : List Result) : ∀ s : AggState,
    (l.foldl consume s).report.AvgDuration = s.report.AvgDuration := by
  induction l with
  | nil => intro s; rfl
  | cons r t ih =>
    intro s
    rw [List.foldl_cons, ih, consume_avgDuration]

theorem runAggregate_totalRequests (l : List Result) :
    (runAggregate l).TotalRequests = l.length := by
  rw [runAggregate, finalize_totalRequests, foldl_totalRequests]
  simp [initState, initReport]

theorem runAggregate_successfulRequests (l : List Result) :
    (runAggregate l).SuccessfulRequests = l.countP isSuccess := by
  rw [runAggregate, finalize_successfulRequests, foldl_successfulRequests]
  simp [initState, initReport]

theorem runAggregate_failedRequests (l : List Result) :
    (runAggregate l).FailedRequests = l.countP (fun r => !(isSuccess r)) := by
  rw [runAggregate, finalize_failedRequests, foldl_failedRequests]
  simp [initState, initReport]

theorem runAggregate_statusCodes (l : List Result) (c : Int) :
    (runAggregate l).StatusCodes c = l.countP (hasCode c) := by
  rw [runAggregate, finalize_statusCodes, foldl_statusCodes]
  simp [initState, initReport]

theorem runAggregate_minDuration (l : List Result) :
    (runAggregate l).MinDuration =
      (nonErrorDurations l).foldl min maxDurationSentinel := by
  rw [runAggregate, finalize_minDuration, foldl_minDuration]
  rfl

theorem runAggregate_maxDuration (l : List Result) :
    (runAggregate l).MaxDuration = (nonErrorDurations l).foldl max 0 := by
  rw [runAggregate, finalize_maxDuration, foldl_maxDuration]
  rfl

theorem runAggregate_avgDuration (l : List Result) :
    (runAggregate l).AvgDuration =
      if 0 < l.countP isSuccess then (nonErrorDurations l).sum / l.countP isSuccess
      else 0 := by
  rw [runAggregate, finalize_avgDuration, foldl_successfulRequests,
    foldl_totalDuration, foldl_avgDuration]
  simp [initState, initReport]

theorem countP_add_countP_not {α : Type} (p : α → Bool) (l : List α) :
    l.countP p + l.countP (fun a => !(p a)) = l.length := by
  induction l with
  | nil => simp
  | cons a t ih =>
    rw [List.countP_cons, List.countP_cons, List.length_cons]
    cases h : p a <;> simp [h] <;> omega

theorem countP_le_countP_of_imp {α : Type} {p q : α → Bool} (l : List α)
    (h : ∀ a, p a = true → q a = true) : l.countP p ≤ l.countP q := by
  induction l with
  | nil => simp
  | cons a t ih =>
    rw [List.countP_cons, List.countP_cons]
    cases hp : p a
    · cases hq : q a <;> simp <;> omega
    · rw [h a hp]
      simp
      omega

theorem foldl_min_le_init (ds : List Nat) : ∀ a : Nat, ds.foldl min a ≤ a := by
  induction ds with
  | nil => intro a; simp
  | cons d t ih =>
    intro a
    rw [List.foldl_cons]
    exact le_trans (ih (min a d)) (min_le_left a d)

theorem foldl_min_le_mem (ds : List Nat) : ∀ (a x : Nat), x ∈ ds → ds.foldl min a ≤ x := by
  induction ds with
  | nil => intro a x hx; cases hx
  | cons d t ih =>
    intro a x hx
    rw [List.foldl_cons]
    rcases List.mem_cons.mp hx with h | h
    · subst h
      exact le_trans (foldl_min_le_init t (min a x)) (min_le_right a x)
    · exact ih (min a d) x h

theorem le_foldl_max_init (ds : List Nat) : ∀ a : Nat, a ≤ ds.foldl max a := by
  induction ds with
  | nil => intro a; simp
  | cons d t ih =>
    intro a
    rw [List.foldl_cons]
    exact le_trans (le_max_left a d) (ih (max a d))

theorem le_foldl_max_mem (ds : List Nat) : ∀ (a x : Nat), x ∈ ds → x ≤ ds.foldl max a := by
  induction ds with
  | nil => intro a x hx; cases hx
  | cons d t ih =>
    intro a x hx
    rw [List.foldl_cons]
    rcases List.mem_cons.mp hx with h | h
    · subst h
      exact le_trans (le_max_right a x) (le_foldl_max_init t (max a x))
    · exact ih (max a d) x h

theorem length_mul_le_sum (ds : List Nat) (m : Nat) (h : ∀ x ∈ ds, m ≤ x) :
    ds.length * m ≤ ds.sum := by
  induction ds with
  | nil => simp
  | cons d t ih =>
    rw [List.length_cons, List.sum_cons]
    have hd : m ≤ d := h d (List.mem_cons_self d t)
    have ht : t.length * m ≤ t.sum := ih (fun x hx => h x (List.mem_cons_of_mem d hx))
    calc (t.length + 1) * m = t.length * m + m := by ring
    _ ≤ t.sum + d := by omega
    _ = d + t.sum := by omega

theorem sum_le_length_mul (ds : List Nat) (M : Nat) (h : ∀ x ∈ ds, x ≤ M) :
    ds.sum ≤ ds.length * M := by
  induction ds with
  | nil => simp
  | cons d t ih =>
    rw [List.length_cons, List.sum_cons]
    have hd : d ≤ M := h d (List.mem_cons_self d t)
    have ht : t.sum ≤ t.length * M := ih (fun x hx => h x (List.mem_cons_of_mem d hx))
    calc d + t.sum ≤ M + t.length * M := by omega
    _ = (t.length + 1) * M := by ring

/-- C1, counterexample: the claim says an outcome with a valid non-200
status code changes none of the duration statistics, but consuming the
single outcome with status 404 and duration 5 moves `MinDuration` off the
sentinel and `MaxDuration` off zero. -/
theorem C1_counterexample :
    (runAggregate [⟨404, 5, false⟩]).MinDuration ≠ maxDurationSentinel ∧
    (runAggregate [⟨404, 5, false⟩]).MaxDuration ≠ 0 := by
  decide

/-- C1, amended: the duration statistics `MinDuration`, `MaxDuration` and
the running total behind `AvgDuration` are updated by every outcome without
a transport error, including valid non-200 status codes; only outcomes
carrying a transport error change none of them. Stated as the run-level
characterization over all non-error durations together with the exact
effect of one consumption step on each of the three statistics. -/
theorem C1_duration_stats_track_non_error_outcomes
    (l : List Result) (s : AggState) (r : Result) :
    (runAggregate l).MinDuration =
      (nonErrorDurations l).foldl min maxDurationSentinel ∧
    (runAggregate l).MaxDuration = (nonErrorDurations l).foldl max 0 ∧
    (consume s r).report.MinDuration =
      (if r.Error = false then min s.report.MinDuration r.Duration
       else s.report.MinDuration) ∧
    (consume s r).report.MaxDuration =
      (if r.Error = false then max s.report.MaxDuration r.Duration
       else s.report.MaxDuration) ∧
    (consume s r).totalDuration =
      (if r.Error = false then s.totalDuration + r.Duration
       else s.totalDuration) :=
  ⟨runAggregate_minDuration l, runAggregate_maxDuration l,
    consume_minDuration s r, consume_maxDuration s r, consume_totalDuration s r⟩

/-- C2: after the aggregation fold, `SuccessfulRequests + FailedRequests =
TotalRequests`, and each consumed outcome increments exactly one of the two
counters. -/
theorem C2_success_plus_failed_eq_total (l : List Result) (s : AggState) (r : Result) :
    (runAggregate l).SuccessfulRequests + (runAggregate l).FailedRequests =
      (runAggregate l).TotalRequests ∧
    (((consume s r).report.SuccessfulRequests = s.report.SuccessfulRequests + 1 ∧
      (consume s r).report.FailedRequests = s.report.FailedRequests) ∨
     ((consume s r).report.SuccessfulRequests = s.report.SuccessfulRequests ∧
      (consume s r).report.FailedRequests = s.report.FailedRequests + 1)) := by
  constructor
  · rw [runAggregate_successfulRequests, runAggregate_failedRequests,
      runAggregate_totalRequests]
    exact countP_add_countP_not isSuccess l
  · rw [consume_successfulRequests, consume_failedRequests]
    by_cases h : r.Error = false ∧ r.StatusCode = 200
    · left
      rw [if_pos h, if_pos h]
      exact ⟨rfl, rfl⟩
    · right
      rw [if_neg h, if_neg h]
      exact ⟨rfl, rfl⟩

/-- C3: the histogram entry for each code counts exactly the non-error
outcomes with that code (so transport-error outcomes never create or
increment an entry), and the summed histogram values equal `TotalRequests`
minus the number of transport-error outcomes. -/
theorem C3_histogram_sum (l : List Result) :
    (∀ c, (runAggregate l).StatusCodes c = l.countP (hasCode c)) ∧
    (∑ c ∈ histSupport l, (runAggregate l).StatusCodes c) =
      (runAggregate l).TotalRequests - l.countP isTransportError := by
  refine ⟨fun c => runAggregate_statusCodes l c, ?_⟩
  rw [runAggregate_totalRequests]
  have hcodes :
      ∀ c, (runAggregate l).StatusCodes c =
        ((l.filter (fun r => !r.Error)).map Result.StatusCode).count c := by
    intro c
    rw [runAggregate_statusCodes, List.count_eq_countP, List.countP_map]
    rw [List.countP_filter]
    apply List.countP_congr
    intro r _
    simp [hasCode, Function.comp]
    constructor
    · intro ⟨h1, h2⟩
      exact ⟨h2, h1⟩
    · intro ⟨h1, h2⟩
      exact ⟨h2, h1⟩
  calc (∑ c ∈ histSupport l, (runAggregate l).StatusCodes c)
      = ∑ c ∈ histSupport l,
          ((l.filter (fun r => !r.Error)).map Result.StatusCode).count c := by
        exact Finset.sum_congr rfl (fun c _ => hcodes c)
    _ = ((l.filter (fun r => !r.Error)).map Result.StatusCode).length :=
        List.sum_toFinset_count_eq_length _
    _ = (l.filter (fun r => !r.Error)).length := List.length_map _ _
    _ = l.countP (fun r => !r.Error) := (List.countP_eq_length_filter _ l).symm
    _ = l.length - l.countP isTransportError := by
        have := countP_add_countP_not isTransportError l
        have heq : l.countP (fun r => !(isTransportError r)) =
            l.countP (fun r => !r.Error) := by
          apply List.countP_congr
          intro r _
          simp [isTransportError]
        omega

/-- C4: when no consumed outcome is successful, finalization leaves the
report exactly as the fold produced it (so no division is performed) and
`AvgDuration` remains its zero value. -/
theorem C4_zero_success_avg_zero (l : List Result)
    (h : (runAggregate l).SuccessfulRequests = 0) :
    (runAggregate l).AvgDuration = 0 ∧
    runAggregate l = (l.foldl consume initState).report := by
  rw [runAggregate_successfulRequests] at h
  constructor
  · rw [runAggregate_avgDuration, h]
    simp
  · rw [runAggregate, finalize]
    have hs : (l.foldl consume initState).report.SuccessfulRequests = 0 := by
      rw [foldl_successfulRequests, h]
      simp [initState, initReport]
    rw [hs]
    simp

/-- C4, witness: a single transport-error outcome yields zero successes and
a zero average duration. -/
theorem C4_zero_success_avg_zero_witness :
    (runAggregate [⟨0, 0, true⟩]).SuccessfulRequests = 0 ∧
    ((runAggregate [⟨0, 0, true⟩]).AvgDuration = 0 ∧
     runAggregate [⟨0, 0, true⟩] =
       (([⟨0, 0, true⟩] : List Result).foldl consume initState).report) :=
  ⟨by decide, C4_zero_success_avg_zero [⟨0, 0, true⟩] (by decide)⟩

/-- C5, counterexample: with one successful outcome of duration 1 and one
non-error 404 outcome of duration 100, `SuccessfulRequests = 1 > 0` but
`AvgDuration = 101/1 = 101` exceeds `MaxDuration = 100`, because the
404 duration enters the running total while the average divides only by the
success count. -/
theorem C5_counterexample :
    0 < (runAggregate [⟨200, 1, false⟩, ⟨404, 100, false⟩]).SuccessfulRequests ∧
    ¬((runAggregate [⟨200, 1, false⟩, ⟨404, 100, false⟩]).MinDuration ≤
        (runAggregate [⟨200, 1, false⟩, ⟨404, 100, false⟩]).AvgDuration ∧
      (runAggregate [⟨200, 1, false⟩, ⟨404, 100, false⟩]).AvgDuration ≤
        (runAggregate [⟨200, 1, false⟩, ⟨404, 100, false⟩]).MaxDuration) := by
  decide

/-- C5, amended: when `SuccessfulRequests > 0`, `MinDuration ≤ AvgDuration`
always holds, and `AvgDuration ≤ MaxDuration` additionally holds whenever
every consumed outcome without transport error has status code 200 (the
code folds every non-error duration into the running total, so a non-200
duration can push the average above the maximum). -/
theorem C5_min_avg_max (l : List Result)
    (h : 0 < (runAggregate l).SuccessfulRequests) :
    (runAggregate l).MinDuration ≤ (runAggregate l).AvgDuration ∧
    ((∀ r ∈ l, r.Error = false → r.StatusCode = 200) →
      (runAggregate l).AvgDuration ≤ (runAggregate l).MaxDuration) := by
  rw [runAggregate_successfulRequests] at h
  rw [runAggregate_minDuration, runAggregate_maxDuration, runAggregate_avgDuration,
    if_pos h]
  have hSle : l.countP isSuccess ≤ (nonErrorDurations l).length := by
    have hlen : (nonErrorDurations l).length = l.countP (fun r => !r.Error) := by
      rw [nonErrorDurations, List.length_map, List.countP_eq_length_filter]
    rw [hlen]
    apply countP_le_countP_of_imp
    intro r hr
    rw [isSuccess_iff] at hr
    simp [hr.1]
  constructor
  · rw [Nat.le_div_iff_mul_le h]
    have hmem : ∀ x ∈ nonErrorDurations l,
        (nonErrorDurations l).foldl min maxDurationSentinel ≤ x :=
      fun x hx => foldl_min_le_mem (nonErrorDurations l) maxDurationSentinel x hx
    have hsum : (nonErrorDurations l).length *
        ((nonErrorDurations l).foldl min maxDurationSentinel) ≤
        (nonErrorDurations l).sum :=
      length_mul_le_sum _ _ hmem
    calc (nonErrorDurations l).foldl min maxDurationSentinel * l.countP isSuccess
        ≤ (nonErrorDurations l).foldl min maxDurationSentinel *
            (nonErrorDurations l).length :=
          Nat.mul_le_mul_left _ hSle
      _ = (nonErrorDurations l).length *
            ((nonErrorDurations l).foldl min maxDurationSentinel) := by ring
      _ ≤ (nonErrorDurations l).sum := hsum
  · intro hall
    have hSeq : l.countP isSuccess = (nonErrorDurations l).length := by
      have hlen : (nonErrorDurations l).length = l.countP (fun r => !r.Error) := by
        rw [nonErrorDurations, List.length_map, List.countP_eq_length_filter]
      rw [hlen]
      apply List.countP_congr
      intro r hr
      rw [isSuccess_iff]
      cases he : r.Error
      · simp [hall r hr he]
      · simp
    have hmem : ∀ x ∈ nonErrorDurations l, x ≤ (nonErrorDurations l).foldl max 0 :=
      fun x hx => le_foldl_max_mem (nonErrorDurations l) 0 x hx
    have hsum : (nonErrorDurations l).sum ≤
        (nonErrorDurations l).length * ((nonErrorDurations l).foldl max 0) :=
      sum_le_length_mul _ _ hmem
    rw [hSeq]
    exact Nat.div_le_of_le_mul hsum

/-- C5, witness: two successful outcomes with durations 3 and 5 give
`MinDuration = 3 ≤ AvgDuration = 4 ≤ MaxDuration = 5`. -/
theorem C5_min_avg_max_witness :
    0 < (runAggregate [⟨200, 3, false⟩, ⟨200, 5, false⟩]).SuccessfulRequests ∧
    (runAggregate [⟨200, 3, false⟩, ⟨200, 5, false⟩]).MinDuration ≤
      (runAggregate [⟨200, 3, false⟩, ⟨200, 5, false⟩]).AvgDuration ∧
    (runAggregate [⟨200, 3, false⟩, ⟨200, 5, false⟩]).AvgDuration ≤
      (runAggregate [⟨200, 3, false⟩, ⟨200, 5, false⟩]).MaxDuration :=
  ⟨by decide,
    (C5_min_avg_max [⟨200, 3, false⟩, ⟨200, 5, false⟩] (by decide)).1,
    (C5_min_avg_max [⟨200, 3, false⟩, ⟨200, 5, false⟩] (by decide)).2 (by decide)⟩

/-- C6: the token queue holds exactly `n` tokens, the worker pool emits
exactly one outcome per token, and whatever order the channel delivers
those outcomes in, the aggregation consumes all of them and reports
`TotalRequests = n`, for every concurrency level `c > 0` (including
`c > n` and `c = 1`, which do not appear in the aggregate at all). -/
theorem C6_exactly_n_outcomes (n c : Nat) (http : Nat → Attempt)
    (elapsed : Nat → Nat) (stream : List Result)
    (hn : 0 < n) (hc : 0 < c)
    (hperm : stream.Perm (dispatchOutcomes http elapsed n)) :
    (tokenQueue n).length = n ∧ stream.length = n ∧
    (runAggregate stream).TotalRequests = n := by
  have hlen : stream.length = n := by
    rw [hperm.length_eq, dispatchOutcomes, List.length_map, List.length_range]
  exact ⟨List.length_replicate n (), hlen,
    by rw [runAggregate_totalRequests, hlen]⟩

/-- C6, witness: one request with concurrency 100 delivers exactly one
outcome and reports `TotalRequests = 1`. -/
theorem C6_exactly_n_outcomes_witness :
    (tokenQueue 1).length = 1 ∧
    (dispatchOutcomes (fun _ => Attempt.response 200) (fun _ => 1) 1).length = 1 ∧
    (runAggregate
      (dispatchOutcomes (fun _ => Attempt.response 200) (fun _ => 1) 1)).TotalRequests = 1 :=
  C6_exactly_n_outcomes 1 100 (fun _ => Attempt.response 200) (fun _ => 1)
    (dispatchOutcomes (fun _ => Attempt.response 200) (fun _ => 1) 1)
    (by decide) (by decide) (List.Perm.refl _)

/-- C7: an invocation with empty URL, non-positive request count, or
non-positive concurrency yields the usage error (no report, no requests
issued); every other invocation runs the test and prints the aggregated
report. -/
theorem C7_configuration_validation (url : String) (requests concurrency : Int)
    (http : Nat → Attempt) (elapsed : Nat → Nat) :
    ((url = "" ∨ requests ≤ 0 ∨ concurrency ≤ 0) →
      mainModel url requests concurrency http elapsed = MainOutcome.usageError) ∧
    (url ≠ "" → 0 < requests → 0 < concurrency →
      mainModel url requests concurrency http elapsed =
        MainOutcome.reportPrinted
          (runAggregate (dispatchOutcomes http elapsed requests.toNat))) := by
  constructor
  · intro h
    rw [mainModel, if_pos h]
  · intro h1 h2 h3
    rw [mainModel, if_neg]
    push_neg
    exact ⟨h1, by omega, by omega⟩

/-- C7, witness: the invocation with no flags set is rejected with the
usage error, while a valid invocation prints a report. -/
theorem C7_configuration_validation_witness :
    mainModel "" 0 0 (fun _ => Attempt.failure) (fun _ => 0) =
      MainOutcome.usageError ∧
    mainModel "http://localhost" 1 1 (fun _ => Attempt.failure) (fun _ => 0) =
      MainOutcome.reportPrinted
        (runAggregate (dispatchOutcomes (fun _ => Attempt.failure) (fun _ => 0)
          (Int.toNat 1))) :=
  ⟨(C7_configuration_validation "" 0 0 (fun _ => Attempt.failure) (fun _ => 0)).1
      (Or.inl rfl),
    (C7_configuration_validation "http://localhost" 1 1 (fun _ => Attempt.failure)
      (fun _ => 0)).2 (by decide) (by decide) (by decide)⟩

theorem reportExt {a b : Report}
    (h1 : a.TotalRequests = b.TotalRequests)
    (h2 : a.SuccessfulRequests = b.SuccessfulRequests)
    (h3 : a.FailedRequests = b.FailedRequests)
    (h4 : ∀ c, a.StatusCodes c = b.StatusCodes c)
    (h5 : a.MinDuration = b.MinDuration)
    (h6 : a.MaxDuration = b.MaxDuration)
    (h7 : a.AvgDuration = b.AvgDuration) : a = b := by
  cases a
  cases b
  simp only [Report.mk.injEq]
  exact ⟨h1, h2, h3, funext h4, h5, h6, h7⟩

theorem aggStateExt {a b : AggState}
    (hr : a.report = b.report) (ht : a.totalDuration = b.totalDuration) :
    a = b := by
  cases a
  cases b
  simp_all

theorem consume_rightComm (s : AggState) (a b : Result) :
    consume (consume s a) b = consume (consume s b) a := by
  apply aggStateExt
  · apply reportExt
    · simp only [consume_totalRequests]
    · simp only [consume_successfulRequests]
      split_ifs <;> omega
    · simp only [consume_failedRequests]
      split_ifs <;> omega
    · intro c
      simp only [consume_statusCodes]
      split_ifs <;> omega
    · simp only [consume_minDuration]
      split_ifs <;> omega
    · simp only [consume_maxDuration]
      split_ifs <;> omega
    · simp only [consume_avgDuration]
  · simp only [consume_totalDuration]
    split_ifs <;> omega

/-- C8, counterexample: the claim says `MinDuration` stays at the sentinel
and `MaxDuration` at zero whenever zero outcomes are successful, but a
single non-error outcome with status 500 and duration 7 leaves zero
successes while moving both statistics. -/
theorem C8_counterexample :
    (runAggregate [⟨500, 7, false⟩]).SuccessfulRequests = 0 ∧
    ¬((runAggregate [⟨500, 7, false⟩]).MinDuration = maxDurationSentinel ∧
      (runAggregate [⟨500, 7, false⟩]).MaxDuration = 0) := by
  decide

/-- C8, amended: `MinDuration` is initialized to the largest representable
duration sentinel and `MaxDuration` to zero, and they keep exactly those
values after any sequence of consumed outcomes in which every outcome
carries a transport error (the statistics in fact move on every non-error
outcome, successful or not, so zero successes alone does not preserve
them). -/
theorem C8_sentinel_initialization (l : List Result)
    (h : ∀ r ∈ l, r.Error = true) :
    initReport.MinDuration = maxDurationSentinel ∧
    initReport.MaxDuration = 0 ∧
    (runAggregate l).MinDuration = maxDurationSentinel ∧
    (runAggregate l).MaxDuration = 0 := by
  have hnil : nonErrorDurations l = [] := by
    rw [nonErrorDurations]
    have hfil : l.filter (fun r => !r.Error) = [] := by
      rw [List.filter_eq_nil_iff]
      intro r hr
      simp [h r hr]
    rw [hfil]
    rfl
  refine ⟨rfl, rfl, ?_, ?_⟩
  · rw [runAggregate_minDuration, hnil]
    rfl
  · rw [runAggregate_maxDuration, hnil]
    rfl

/-- C8, witness: two transport-error outcomes leave `MinDuration` at the
sentinel and `MaxDuration` at zero. -/
theorem C8_sentinel_initialization_witness :
    initReport.MinDuration = maxDurationSentinel ∧
    initReport.MaxDuration = 0 ∧
    (runAggregate [⟨0, 0, true⟩, ⟨0, 0, true⟩]).MinDuration = maxDurationSentinel ∧
    (runAggregate [⟨0, 0, true⟩, ⟨0, 0, true⟩]).MaxDuration = 0 :=
  C8_sentinel_initialization [⟨0, 0, true⟩, ⟨0, 0, true⟩] (by decide)

/-- C9: the aggregation fold is order-independent — folding any permutation
of the consumed outcomes yields the same final report (all of counts,
histogram, total, min, max and average; the wall-clock `TotalTime` is not a
function of the outcomes and is outside the model). -/
theorem C9_order_independent (l₁ l₂ : List Result) (h : l₁.Perm l₂) :
    runAggregate l₁ = runAggregate l₂ := by
  unfold runAggregate
  exact congrArg finalize
    (h.foldl_eq' (fun x _ y _ z => consume_rightComm z x y) initState)

/-- C9, witness: swapping a successful outcome and a transport-error
outcome leaves the final report unchanged. -/
theorem C9_order_independent_witness :
    runAggregate [⟨200, 1, false⟩, ⟨0, 0, true⟩] =
      runAggregate [⟨0, 0, true⟩, ⟨200, 1, false⟩] :=
  C9_order_independent _ _ (List.Perm.swap _ _ _)

/-- C10: the outcome a worker emits for a transport-level failure has zero
`StatusCode` and zero `Duration` — the measured elapsed time is discarded —
and consuming such an outcome leaves `MinDuration`, `MaxDuration`, the
running duration total and the histogram untouched. -/
theorem C10_transport_error_outcome (elapsed : Nat) (s : AggState) :
    (emitOutcome Attempt.failure elapsed).StatusCode = 0 ∧
    (emitOutcome Attempt.failure elapsed).Duration = 0 ∧
    (emitOutcome Attempt.failure elapsed).Error = true ∧
    (consume s (emitOutcome Attempt.failure elapsed)).report.MinDuration =
      s.report.MinDuration ∧
    (consume s (emitOutcome Attempt.failure elapsed)).report.MaxDuration =
      s.report.MaxDuration ∧
    (consume s (emitOutcome Attempt.failure elapsed)).totalDuration =
      s.totalDuration ∧
    (∀ c, (consume s (emitOutcome Attempt.failure elapsed)).report.StatusCodes c =
      s.report.StatusCodes c) := by
  refine ⟨rfl, rfl, rfl, ?_, ?_, ?_, ?_⟩
  · rw [consume_minDuration]
    simp [emitOutcome]
  · rw [consume_maxDuration]
    simp [emitOutcome]
  · rw [consume_totalDuration]
    simp [emitOutcome]
  · intro c
    rw [consume_statusCodes]
    simp [emitOutcome]

end StressSpec
